import Mathlib

/-!
Verification development for the TrendFront scoring pipeline (src/main.py).

The Python source is shallowly embedded below:
* machine floats are idealised as exact arithmetic: timestamps, ages and
  normalized metrics live in `ℚ` (every float literal of the source is a
  rational), and only the exponential decay step moves to `ℝ`;
* Python exceptions are modelled with `Except PyError`; a `try/except`
  block is a `match` on that result;
* a Reddit submission object is a bag of optional attributes; accessing a
  missing attribute raises `AttributeError`, modelled by matching on the
  optional field inside `process_submission`.
-/

/-- Python exceptions that the embedded fragments can raise. -/
inductive PyError : Type
  | attributeError (field : String)
  | valueError
  | typeError
  | storeError (pid : String)
  deriving Repr, DecidableEq

/-- A praw submission as seen by `process_submission` (src/main.py:43-71).
`none` in an outer `Option` means the attribute is absent (access raises);
for `url` the inner `Option` distinguishes a Python `None` value from a
string.  `url_title` is probed with `hasattr`, so its absence never raises. -/
structure Submission where
  id : Option String
  title : Option String
  url_title : Option String
  url : Option (Option String)
  is_self : Option Bool
  subreddit_display_name : Option String
  score : Option ℤ
  num_comments : Option ℤ
  created_utc : Option ℚ
  deriving Repr, DecidableEq

/-- A fully well-formed submission (every required attribute present), the
shape the external source contract of the spec guarantees. -/
def mkSubmission (pid t : String) (urlT : Option String) (u : Option String)
    (isSelf : Bool) (subName : String) (sc nc : ℤ) (created : ℚ) : Submission :=
  { id := some pid, title := some t, url_title := urlT, url := some u,
    is_self := some isSelf, subreddit_display_name := some subName,
    score := some sc, num_comments := some nc, created_utc := some created }

/-- The record built by `process_submission` (src/main.py:59-71).  The field
`upvote_per_comment` embeds the dictionary key `"upvote_to_comment_ratio"`. -/
structure PostRecord where
  post_id : String
  title : String
  linked_page_title : String
  linked_page_url : String
  subreddit_name : String
  upvotes : ℤ
  comments_count : ℤ
  upvote_per_comment : ℚ
  timestamp : ℚ
  fetch_time : ℚ
  score : Option ℝ

/-- Python truthiness of the `url` value: `None` and `""` are falsy. -/
def py_truthy : Option String → Bool
  | none => false
  | some s => !(s == "")

/-- src/main.py:43-71, `process_submission(submission)`.  The extra `now`
argument models the ambient `datetime.now(UTC)` call of line 69.  Attribute
accesses are performed in the source's evaluation order: `is_self`, then
(short-circuit `or`) `url`, then the ratio conditional of lines 56-57, then
the dictionary literal of lines 59-71. -/
def process_submission (now : ℚ) (s : Submission) : Except PyError (Option PostRecord) :=
  match s.is_self with
  | none => .error (.attributeError "is_self")
  | some isSelf =>
    if isSelf then .ok none
    else
      match s.url with
      | none => .error (.attributeError "url")
      | some u =>
        if py_truthy u then
          match s.num_comments with
          | none => .error (.attributeError "num_comments")
          | some nc =>
            match (if 0 < nc then
                     match s.score with
                     | none => Except.error (PyError.attributeError "score")
                     | some sc => Except.ok ((sc : ℚ) / (nc : ℚ))
                   else Except.ok (0 : ℚ)) with
            | .error e => .error e
            | .ok rq =>
              match s.id with
              | none => .error (.attributeError "id")
              | some pid =>
                match s.title with
                | none => .error (.attributeError "title")
                | some t =>
                  match s.subreddit_display_name with
                  | none => .error (.attributeError "subreddit")
                  | some subName =>
                    match s.score with
                    | none => .error (.attributeError "score")
                    | some sc =>
                      match s.created_utc with
                      | none => .error (.attributeError "created_utc")
                      | some created =>
                        .ok (some
                          { post_id := pid
                            title := t
                            linked_page_title :=
                              match s.url_title with
                              | some ut => ut
                              | none => t
                            linked_page_url := u.getD ""
                            subreddit_name := subName
                            upvotes := sc
                            comments_count := nc
                            upvote_per_comment := rq
                            timestamp := created
                            fetch_time := now
                            score := none })
        else .ok none

/-- src/main.py:83-85: the results of `executor.map(process_submission, ...)`
are consumed in order by the list comprehension; the first exception raised
by an item surfaces there and aborts the comprehension, so no later item
contributes and `posts_data` is never assigned. -/
def fetch_results (now : ℚ) : List Submission → Except PyError (List PostRecord)
  | [] => .ok []
  | s :: ss =>
    match process_submission now s with
    | .error e => .error e
    | .ok none => fetch_results now ss
    | .ok (some r) =>
      match fetch_results now ss with
      | .error e => .error e
      | .ok rest => .ok (r :: rest)

/-- src/main.py:73-92, `fetch_data`: the set of records handed to the batch
upsert of line 89.  When the comprehension raises, the exception propagates
out of `fetch_data` before the upsert is reached, so nothing is written. -/
def fetch_data_upserts (now : ℚ) (subs : List Submission) : List PostRecord :=
  match fetch_results now subs with
  | .ok posts => posts
  | .error _ => []

/-- One row of the `posts` table as selected by the analysis query
(src/main.py:108-111): `post_id, upvotes, comments_count, timestamp`. -/
structure Row where
  post_id : String
  upvotes : ℤ
  comments_count : ℤ
  timestamp : ℚ
  deriving Repr, DecidableEq

/-- Python `min` over a non-empty list, given as head plus tail. -/
def pyMin {α : Type} [LinearOrder α] (x : α) (xs : List α) : α := xs.foldl min x

/-- Python `max` over a non-empty list, given as head plus tail. -/
def pyMax {α : Type} [LinearOrder α] (x : α) (xs : List α) : α := xs.foldl max x

/-- src/main.py:146 for a non-empty batch `d :: ds`: `u_min = min(upvotes)`. -/
def uMin (d : Row) (ds : List Row) : ℤ := pyMin d.upvotes (ds.map Row.upvotes)

/-- src/main.py:146: `u_max = max(upvotes)`. -/
def uMax (d : Row) (ds : List Row) : ℤ := pyMax d.upvotes (ds.map Row.upvotes)

/-- src/main.py:147: `c_min = min(comments)`. -/
def cMin (d : Row) (ds : List Row) : ℤ := pyMin d.comments_count (ds.map Row.comments_count)

/-- src/main.py:147: `c_max = max(comments)`. -/
def cMax (d : Row) (ds : List Row) : ℤ := pyMax d.comments_count (ds.map Row.comments_count)

/-- src/main.py:150: `upvote_range = u_max - u_min if u_max != u_min else 1`. -/
def upvote_range (u_min u_max : ℤ) : ℤ := if u_max ≠ u_min then u_max - u_min else 1

/-- src/main.py:151: `comment_range = c_max - c_min if c_max != c_min else 1`. -/
def comment_range (c_min c_max : ℤ) : ℤ := if c_max ≠ c_min then c_max - c_min else 1

/-- src/main.py:155: `norm_upvotes = (upvotes[i] - u_min) / upvote_range`. -/
def norm_upvotes (u_min u_max u : ℤ) : ℚ :=
  ((u - u_min : ℤ) : ℚ) / ((upvote_range u_min u_max : ℤ) : ℚ)

/-- src/main.py:156: `norm_comments = (comments[i] - c_min) / comment_range`. -/
def norm_comments (c_min c_max c : ℤ) : ℚ :=
  ((c - c_min : ℤ) : ℚ) / ((comment_range c_min c_max : ℤ) : ℚ)

/-- src/main.py:133-139: a post's age in hours,
`(current_time - timestamp).total_seconds() / 3600.0`, timestamps being
already coerced to the fixed UTC reference. -/
def postAge (now : ℚ) (r : Row) : ℚ := (now - r.timestamp) / 3600

/-- src/main.py:157: `age_factor = math.exp(-post_ages[i] / 24)`. -/
noncomputable def age_factor (age : ℚ) : ℝ := Real.exp (-(age : ℝ) / 24)

/-- src/main.py:160:
`score = (0.7 * norm_upvotes + 0.3 * norm_comments) * age_factor`. -/
noncomputable def scoreOf (u_min u_max c_min c_max : ℤ) (now : ℚ) (r : Row) : ℝ :=
  ((0.7 * norm_upvotes u_min u_max r.upvotes
      + 0.3 * norm_comments c_min c_max r.comments_count : ℚ) : ℝ)
    * age_factor (postAge now r)

/-- The body of the `try` block of `analyze_data` (src/main.py:129-167),
with a store whose updates all succeed.  On an empty batch, `min(upvotes)`
at line 146 raises `ValueError` (the earlier `np.mean`/`np.std` only warn);
on a non-empty batch the loop of lines 154-165 issues one keyed update per
record, in batch order. -/
noncomputable def analyze_body : List Row → ℚ → Except PyError (List (String × ℝ))
  | [], _ => .error .valueError
  | d :: ds, now =>
    .ok ((d :: ds).map (fun r =>
      (r.post_id, scoreOf (uMin d ds) (uMax d ds) (cMin d ds) (cMax d ds) now r)))

/-- src/main.py:119-170, `analyze_data(data, current_time)`: the sequence of
`(post_id, score)` updates actually written, the surrounding
`try/except` (lines 129, 169-170) swallowing any exception. -/
noncomputable def analyze_data (data : List Row) (now : ℚ) : List (String × ℝ) :=
  match analyze_body data now with
  | .ok ws => ws
  | .error _ => []

/-- The update loop of src/main.py:154-165 against a store in which the
update for a post id in `fails` raises: the exception propagates to the
single `except` of line 169, so the writes that succeed are exactly those
strictly before the first failing one. -/
def performUpdates (fails : String → Bool) : List (String × ℝ) → List (String × ℝ)
  | [] => []
  | (pid, sc) :: rest =>
    if fails pid then [] else (pid, sc) :: performUpdates fails rest

/-- `analyze_data` against a store with injected per-id update failures. -/
noncomputable def analyze_data_store (fails : String → Bool) (data : List Row) (now : ℚ) :
    List (String × ℝ) :=
  match analyze_body data now with
  | .error _ => []
  | .ok ws => performUpdates fails ws

/-- One stored row of the `posts` table, with the `fetch_time` column the
window query filters on. -/
structure StoredPost where
  post_id : String
  upvotes : ℤ
  comments_count : ℤ
  timestamp : ℚ
  fetch_time : ℚ
  deriving Repr, DecidableEq

/-- src/main.py:94-117, `retrieve_last_24h_posts`: selects rows with
`fetch_time >= now - 24h`; on an empty result the bare `return` of line 115
yields Python `None`, modelled as `none`. -/
def retrieve_last_24h_posts (table : List StoredPost) (now : ℚ) :
    Option (List Row × ℚ) :=
  let data := (table.filter (fun p => decide (now - 24 * 3600 ≤ p.fetch_time))).map
    (fun p => { post_id := p.post_id, upvotes := p.upvotes,
                comments_count := p.comments_count, timestamp := p.timestamp : Row })
  if data.isEmpty then none else some (data, now)

/-- The body of the `try` of `hourly_analysis` (src/main.py:174-176): tuple
unpacking of a `None` result raises `TypeError` before `analyze_data` runs. -/
noncomputable def hourly_body (table : List StoredPost) (now : ℚ) :
    Except PyError (List (String × ℝ)) :=
  match retrieve_last_24h_posts table now with
  | none => .error .typeError
  | some (data, t) => .ok (analyze_data data t)

/-- src/main.py:172-178, `hourly_analysis`: the writes of one analysis
cycle; the `except` of line 177 contains every exception. -/
noncomputable def hourly_analysis (table : List StoredPost) (now : ℚ) :
    List (String × ℝ) :=
  match hourly_body table now with
  | .ok ws => ws
  | .error _ => []

/-- Minimum age over a non-empty batch: the `min(age_hours)` of the spec's
bound `decay_max = exp(-min(age_hours)/24)`. -/
def minAge (now : ℚ) (d : Row) (ds : List Row) : ℚ :=
  pyMin (postAge now d) (ds.map (postAge now))

/-- Record 1 of the end-to-end scenario: upvotes 10, comments 5, age 0 h. -/
def c1row1 : Row := { post_id := "p1", upvotes := 10, comments_count := 5, timestamp := 172800 }

/-- Record 2 of the end-to-end scenario: upvotes 20, comments 5, age 24 h. -/
def c1row2 : Row := { post_id := "p2", upvotes := 20, comments_count := 5, timestamp := 86400 }

/-- Record 3 of the end-to-end scenario: upvotes 30, comments 5, age 48 h. -/
def c1row3 : Row := { post_id := "p3", upvotes := 30, comments_count := 5, timestamp := 0 }

/-- A singleton batch used to instantiate the score-bound theorem. -/
def c2row : Row := { post_id := "w2", upvotes := 3, comments_count := 7, timestamp := 0 }

/-- Head of a two-record batch with distinct upvote counts. -/
def c3dRow : Row := { post_id := "w3a", upvotes := 1, comments_count := 0, timestamp := 0 }

/-- Tail of the two-record batch with distinct upvote counts. -/
def c3dsRows : List Row := [{ post_id := "w3b", upvotes := 3, comments_count := 0, timestamp := 0 }]

/-- A record fetched one hour before `now = 3600`. -/
def c4rowA : Row := { post_id := "w4a", upvotes := 3, comments_count := 4, timestamp := 3600 }

/-- A record identical to `c4rowA` except one hour older. -/
def c4rowB : Row := { post_id := "w4b", upvotes := 3, comments_count := 4, timestamp := 0 }

/-- A stored post whose `fetch_time` lies outside the 24 h window of
`now = 100000`. -/
def c7stale : StoredPost :=
  { post_id := "old", upvotes := 1, comments_count := 1, timestamp := 0, fetch_time := 0 }

/-- A well-formed link submission. -/
def c8good1 : Submission :=
  mkSubmission "g1" "post one" none (some "http://a.example") false "news" 5 2 0

/-- A malformed submission: the required `title` attribute is absent, so the
transform raises `AttributeError` at the dictionary literal. -/
def c8bad : Submission :=
  { id := some "b", title := none, url_title := none,
    url := some (some "http://b.example"), is_self := some false,
    subreddit_display_name := some "news", score := some 1,
    num_comments := some 1, created_utc := some 0 }

/-- A second well-formed link submission, after the malformed one. -/
def c8good2 : Submission :=
  mkSubmission "g2" "post two" none (some "http://c.example") false "news" 7 0 0

/-- Three rows with identical metrics, so each score is 0. -/
def c9rows : List Row :=
  [ { post_id := "p1", upvotes := 4, comments_count := 6, timestamp := 0 },
    { post_id := "p2", upvotes := 4, comments_count := 6, timestamp := 0 },
    { post_id := "p3", upvotes := 4, comments_count := 6, timestamp := 0 } ]

/-- A store in which only the update for post `"p2"` fails. -/
def c9fails : String → Bool := fun pid => pid == "p2"

/-! ## Helper lemmas about Python `min`/`max` over a list -/

theorem pyMin_le_init {α : Type} [LinearOrder α] :
    ∀ (xs : List α) (x : α), pyMin x xs ≤ x
  | [], _ => le_refl _
  | y :: ys, x => le_trans (pyMin_le_init ys (min x y)) (min_le_left x y)

theorem pyMin_le_mem {α : Type} [LinearOrder α] {y : α} :
    ∀ (xs : List α) (x : α), y ∈ xs → pyMin x xs ≤ y
  | z :: zs, x, h => by
    rcases List.mem_cons.mp h with h | h
    · subst h
      exact le_trans (pyMin_le_init zs (min x y)) (min_le_right x y)
    · exact pyMin_le_mem zs (min x z) h

theorem le_pyMin {α : Type} [LinearOrder α] {c : α} :
    ∀ (xs : List α) (x : α), c ≤ x → (∀ y ∈ xs, c ≤ y) → c ≤ pyMin x xs
  | [], _, hx, _ => hx
  | z :: zs, x, hx, h =>
    le_pyMin zs (min x z) (le_min hx (h z (List.mem_cons_self z zs)))
      (fun y hy => h y (List.mem_cons_of_mem z hy))

theorem init_le_pyMax {α : Type} [LinearOrder α] :
    ∀ (xs : List α) (x : α), x ≤ pyMax x xs
  | [], _ => le_refl _
  | y :: ys, x => le_trans (le_max_left x y) (init_le_pyMax ys (max x y))

theorem mem_le_pyMax {α : Type} [LinearOrder α] {y : α} :
    ∀ (xs : List α) (x : α), y ∈ xs → y ≤ pyMax x xs
  | z :: zs, x, h => by
    rcases List.mem_cons.mp h with h | h
    · subst h
      exact le_trans (le_max_right x y) (init_le_pyMax zs (max x y))
    · exact mem_le_pyMax zs (max x z) h

theorem pyMax_le {α : Type} [LinearOrder α] {c : α} :
    ∀ (xs : List α) (x : α), x ≤ c → (∀ y ∈ xs, y ≤ c) → pyMax x xs ≤ c
  | [], _, hx, _ => hx
  | z :: zs, x, hx, h =>
    pyMax_le zs (max x z) (max_le hx (h z (List.mem_cons_self z zs)))
      (fun y hy => h y (List.mem_cons_of_mem z hy))

theorem pyMin_le_of_mem_cons {α β : Type} [LinearOrder α] (f : β → α) {d r : β}
    {ds : List β} (h : r ∈ d :: ds) : pyMin (f d) (ds.map f) ≤ f r := by
  rcases List.mem_cons.mp h with h | h
  · subst h
    exact pyMin_le_init _ _
  · exact pyMin_le_mem _ _ (List.mem_map_of_mem f h)

theorem mem_le_pyMax_of_mem_cons {α β : Type} [LinearOrder α] (f : β → α) {d r : β}
    {ds : List β} (h : r ∈ d :: ds) : f r ≤ pyMax (f d) (ds.map f) := by
  rcases List.mem_cons.mp h with h | h
  · subst h
    exact init_le_pyMax _ _
  · exact mem_le_pyMax _ _ (List.mem_map_of_mem f h)

/-! ## Helper lemmas about normalization and decay -/

theorem norm_comments_eq_norm_upvotes (a b c : ℤ) :
    norm_comments a b c = norm_upvotes a b c := rfl

theorem norm_upvotes_bounds {u_min u_max u : ℤ} (h1 : u_min ≤ u) (h2 : u ≤ u_max) :
    0 ≤ norm_upvotes u_min u_max u ∧ norm_upvotes u_min u_max u ≤ 1 := by
  unfold norm_upvotes upvote_range
  by_cases he : u_max = u_min
  · have hu : u = u_min := le_antisymm (he ▸ h2) h1
    subst hu
    simp [he]
  · rw [if_pos he]
    have hlt : u_min < u_max := lt_of_le_of_ne (h1.trans h2) (Ne.symm he)
    have h1q : ((u_min : ℚ)) ≤ ((u : ℚ)) := by exact_mod_cast h1
    have h2q : ((u : ℚ)) ≤ ((u_max : ℚ)) := by exact_mod_cast h2
    have hltq : ((u_min : ℚ)) < ((u_max : ℚ)) := by exact_mod_cast hlt
    have hpos : (0 : ℚ) < ((u_max - u_min : ℤ) : ℚ) := by
      push_cast
      linarith
    constructor
    · apply div_nonneg _ hpos.le
      push_cast
      linarith
    · rw [div_le_one hpos]
      push_cast
      linarith

theorem age_factor_pos (a : ℚ) : 0 < age_factor a := Real.exp_pos _

theorem age_factor_anti {a b : ℚ} (h : a ≤ b) : age_factor b ≤ age_factor a := by
  unfold age_factor
  apply Real.exp_le_exp.mpr
  have hc : (a : ℝ) ≤ (b : ℝ) := by exact_mod_cast h
  linarith

theorem minAge_le_postAge (now : ℚ) (d : Row) {ds : List Row} {r : Row}
    (hr : r ∈ d :: ds) : minAge now d ds ≤ postAge now r :=
  pyMin_le_of_mem_cons (postAge now) hr

theorem scoreOf_nonneg_le_decay (now : ℚ) (d : Row) {ds : List Row} {r : Row}
    (hr : r ∈ d :: ds) :
    0 ≤ scoreOf (uMin d ds) (uMax d ds) (cMin d ds) (cMax d ds) now r ∧
      scoreOf (uMin d ds) (uMax d ds) (cMin d ds) (cMax d ds) now r
        ≤ age_factor (postAge now r) := by
  have hu := norm_upvotes_bounds
    (show uMin d ds ≤ r.upvotes from pyMin_le_of_mem_cons Row.upvotes hr)
    (show r.upvotes ≤ uMax d ds from mem_le_pyMax_of_mem_cons Row.upvotes hr)
  have hcb := norm_upvotes_bounds
    (show cMin d ds ≤ r.comments_count from pyMin_le_of_mem_cons Row.comments_count hr)
    (show r.comments_count ≤ cMax d ds from mem_le_pyMax_of_mem_cons Row.comments_count hr)
  rw [← norm_comments_eq_norm_upvotes] at hcb
  have hw0 : (0 : ℚ) ≤ 0.7 * norm_upvotes (uMin d ds) (uMax d ds) r.upvotes
      + 0.3 * norm_comments (cMin d ds) (cMax d ds) r.comments_count := by
    have := hu.1
    have := hcb.1
    linarith
  have hw1 : 0.7 * norm_upvotes (uMin d ds) (uMax d ds) r.upvotes
      + 0.3 * norm_comments (cMin d ds) (cMax d ds) r.comments_count ≤ 1 := by
    have := hu.2
    have := hcb.2
    linarith
  unfold scoreOf
  constructor
  · apply mul_nonneg _ (age_factor_pos _).le
    exact_mod_cast hw0
  · have hcast : ((0.7 * norm_upvotes (uMin d ds) (uMax d ds) r.upvotes
        + 0.3 * norm_comments (cMin d ds) (cMax d ds) r.comments_count : ℚ) : ℝ) ≤ 1 := by
      exact_mod_cast hw1
    calc ((0.7 * norm_upvotes (uMin d ds) (uMax d ds) r.upvotes
        + 0.3 * norm_comments (cMin d ds) (cMax d ds) r.comments_count : ℚ) : ℝ)
          * age_factor (postAge now r)
        ≤ 1 * age_factor (postAge now r) :=
          mul_le_mul_of_nonneg_right hcast (age_factor_pos _).le
      _ = age_factor (postAge now r) := one_mul _

/-! ## Claims -/

/-- Claim C2: for every non-empty batch, every score written by
`analyze_data` lies in `[0, exp(-min(age_hours)/24)]`; when every record's
age is non-negative, every score lies in `[0, 1]`. -/
theorem c2_score_bounds (now : ℚ) (d : Row) (ds : List Row) (pid : String) (s : ℝ)
    (h : (pid, s) ∈ analyze_data (d :: ds) now) :
    0 ≤ s ∧ s ≤ Real.exp (-((minAge now d ds : ℚ) : ℝ) / 24) ∧
      ((∀ r ∈ d :: ds, 0 ≤ postAge now r) → s ≤ 1) := by
  have hmem : (pid, s) ∈ (d :: ds).map (fun r =>
      (r.post_id, scoreOf (uMin d ds) (uMax d ds) (cMin d ds) (cMax d ds) now r)) := h
  obtain ⟨r, hr, heq⟩ := List.mem_map.mp hmem
  have hs : scoreOf (uMin d ds) (uMax d ds) (cMin d ds) (cMax d ds) now r = s :=
    congrArg Prod.snd heq
  subst hs
  obtain ⟨h0, hdec⟩ := scoreOf_nonneg_le_decay now d hr
  have hmono : age_factor (postAge now r) ≤ age_factor (minAge now d ds) :=
    age_factor_anti (minAge_le_postAge now d hr)
  refine ⟨h0, le_trans hdec hmono, ?_⟩
  intro hages
  have hm0 : (0 : ℚ) ≤ minAge now d ds := by
    apply le_pyMin
    · exact hages d (List.mem_cons_self d ds)
    · intro y hy
      obtain ⟨x, hx, rfl⟩ := List.mem_map.mp hy
      exact hages x (List.mem_cons_of_mem d hx)
  have hle1 : age_factor (minAge now d ds) ≤ 1 := by
    have hx : (-(((minAge now d ds : ℚ)) : ℝ) / 24) ≤ 0 := by
      have : (0 : ℝ) ≤ ((minAge now d ds : ℚ) : ℝ) := by exact_mod_cast hm0
      linarith
    calc age_factor (minAge now d ds)
        = Real.exp (-((minAge now d ds : ℚ) : ℝ) / 24) := rfl
      _ ≤ Real.exp 0 := Real.exp_le_exp.mpr hx
      _ = 1 := Real.exp_zero
  exact le_trans hdec (le_trans hmono hle1)

/-- Witness for C2 at the singleton batch `[c2row]` with `now = 0`. -/
theorem c2_score_bounds_witness :
    0 ≤ scoreOf (uMin c2row []) (uMax c2row []) (cMin c2row []) (cMax c2row []) 0 c2row ∧
      scoreOf (uMin c2row []) (uMax c2row []) (cMin c2row []) (cMax c2row []) 0 c2row
        ≤ Real.exp (-((minAge 0 c2row [] : ℚ) : ℝ) / 24) ∧
      ((∀ r ∈ [c2row], 0 ≤ postAge 0 r) →
        scoreOf (uMin c2row []) (uMax c2row []) (cMin c2row []) (cMax c2row []) 0 c2row ≤ 1) := by
  have h : ("w2", scoreOf (uMin c2row []) (uMax c2row []) (cMin c2row []) (cMax c2row []) 0 c2row)
      ∈ analyze_data [c2row] 0 := by
    simp [analyze_data, analyze_body, c2row]
  exact c2_score_bounds 0 c2row [] "w2" _ h

/-- Claim C3: with a positive upvote range the minimum-upvote record
normalizes to 0 and the maximum-upvote record to 1; with all upvotes
identical every record normalizes to 0 and the guarded divisor is nonzero. -/
theorem c3_normalization_endpoints (d : Row) (ds : List Row) (r : Row)
    (hr : r ∈ d :: ds) :
    upvote_range (uMin d ds) (uMax d ds) ≠ 0 ∧
    (uMax d ds ≠ uMin d ds → r.upvotes = uMin d ds →
      norm_upvotes (uMin d ds) (uMax d ds) r.upvotes = 0) ∧
    (uMax d ds ≠ uMin d ds → r.upvotes = uMax d ds →
      norm_upvotes (uMin d ds) (uMax d ds) r.upvotes = 1) ∧
    ((∀ x ∈ d :: ds, Row.upvotes x = d.upvotes) →
      norm_upvotes (uMin d ds) (uMax d ds) r.upvotes = 0) := by
  refine ⟨?_, ?_, ?_, ?_⟩
  · unfold upvote_range
    by_cases he : uMax d ds ≠ uMin d ds
    · rw [if_pos he]
      exact sub_ne_zero.mpr he
    · rw [if_neg he]
      exact one_ne_zero
  · intro _ hval
    rw [hval]
    unfold norm_upvotes
    simp
  · intro hne hval
    rw [hval]
    unfold norm_upvotes upvote_range
    rw [if_pos hne]
    rw [div_self]
    exact_mod_cast sub_ne_zero.mpr hne
  · intro hall
    have hmin : uMin d ds = d.upvotes := by
      unfold uMin
      refine le_antisymm (pyMin_le_init _ _) (le_pyMin _ _ le_rfl ?_)
      intro y hy
      obtain ⟨x, hx, rfl⟩ := List.mem_map.mp hy
      rw [hall x (List.mem_cons_of_mem d hx)]
    have hrv : r.upvotes = d.upvotes := hall r hr
    unfold norm_upvotes
    rw [hrv, hmin]
    simp

/-- Witness for C3 at the two-record batch with upvotes 1 and 3. -/
theorem c3_normalization_endpoints_witness :
    upvote_range (uMin c3dRow c3dsRows) (uMax c3dRow c3dsRows) ≠ 0 ∧
    (uMax c3dRow c3dsRows ≠ uMin c3dRow c3dsRows →
      Row.upvotes c3dRow = uMin c3dRow c3dsRows →
      norm_upvotes (uMin c3dRow c3dsRows) (uMax c3dRow c3dsRows) (Row.upvotes c3dRow) = 0) ∧
    (uMax c3dRow c3dsRows ≠ uMin c3dRow c3dsRows →
      Row.upvotes c3dRow = uMax c3dRow c3dsRows →
      norm_upvotes (uMin c3dRow c3dsRows) (uMax c3dRow c3dsRows) (Row.upvotes c3dRow) = 1) ∧
    ((∀ x ∈ c3dRow :: c3dsRows, Row.upvotes x = Row.upvotes c3dRow) →
      norm_upvotes (uMin c3dRow c3dsRows) (uMax c3dRow c3dsRows) (Row.upvotes c3dRow) = 0) :=
  c3_normalization_endpoints c3dRow c3dsRows c3dRow (List.mem_cons_self _ _)

/-- Claim C4: the decay factor is strictly decreasing in age for two
otherwise-identical records; a record exactly 24 hours old decays to `1/e`;
a negative age raises nothing and yields a decay factor above 1. -/
theorem c4_decay_monotone (now : ℚ) (r1 r2 : Row)
    (_hup : r1.upvotes = r2.upvotes) (_hcm : r1.comments_count = r2.comments_count)
    (hage : postAge now r1 < postAge now r2) :
    age_factor (postAge now r2) < age_factor (postAge now r1) ∧
    age_factor 24 = (Real.exp 1)⁻¹ ∧
    (∀ a : ℚ, a < 0 → 1 < age_factor a) := by
  refine ⟨?_, ?_, ?_⟩
  · unfold age_factor
    apply Real.exp_lt_exp.mpr
    have hc : ((postAge now r1 : ℚ) : ℝ) < ((postAge now r2 : ℚ) : ℝ) := by
      exact_mod_cast hage
    linarith
  · have h24 : (-(((24 : ℚ)) : ℝ) / 24) = -1 := by norm_num
    calc age_factor 24 = Real.exp (-((24 : ℚ) : ℝ) / 24) := rfl
      _ = Real.exp (-1) := by rw [h24]
      _ = (Real.exp 1)⁻¹ := Real.exp_neg 1
  · intro a ha
    have hx : (0 : ℝ) < -((a : ℚ) : ℝ) / 24 := by
      have hc : ((a : ℚ) : ℝ) < 0 := by exact_mod_cast ha
      linarith
    calc (1 : ℝ) = Real.exp 0 := Real.exp_zero.symm
      _ < Real.exp (-((a : ℚ) : ℝ) / 24) := Real.exp_lt_exp.mpr hx
      _ = age_factor a := rfl

/-- Witness for C4 at two records one hour apart in age. -/
theorem c4_decay_monotone_witness :
    age_factor (postAge 3600 c4rowB) < age_factor (postAge 3600 c4rowA) ∧
    age_factor 24 = (Real.exp 1)⁻¹ ∧
    (∀ a : ℚ, a < 0 → 1 < age_factor a) :=
  c4_decay_monotone 3600 c4rowA c4rowB rfl rfl
    (by norm_num [postAge, c4rowA, c4rowB])

/-- Claim C10: a window of exactly one record is always scored 0. -/
theorem c10_singleton_zero (r : Row) (now : ℚ) :
    analyze_data [r] now = [(r.post_id, 0)] := by
  have h : analyze_data [r] now
      = [(r.post_id, scoreOf (uMin r []) (uMax r []) (cMin r []) (cMax r []) now r)] := rfl
  rw [h]
  have hz : scoreOf (uMin r []) (uMax r []) (cMin r []) (cMax r []) now r = 0 := by
    unfold scoreOf
    have hm : uMin r [] = r.upvotes := rfl
    have hcm : cMin r [] = r.comments_count := rfl
    rw [hm, hcm]
    unfold norm_upvotes norm_comments
    simp
  rw [hz]

/-- Claim C7: an empty scoring window writes nothing and lets nothing
escape the cycle, and `analyze` on zero records writes nothing and
returns (its internal exception is caught by its own handler). -/
theorem c7_empty_window (now : ℚ) (table : List StoredPost)
    (h : ∀ p ∈ table, p.fetch_time < now - 24 * 3600) :
    retrieve_last_24h_posts table now = none ∧
    hourly_body table now = .error .typeError ∧
    hourly_analysis table now = [] ∧
    (∀ t : ℚ, analyze_body [] t = .error .valueError) ∧
    (∀ t : ℚ, analyze_data [] t = []) := by
  have hfil : table.filter (fun p => decide (now - 24 * 3600 ≤ p.fetch_time)) = [] := by
    rw [List.filter_eq_nil_iff]
    intro p hp
    simpa using not_le.mpr (h p hp)
  have hret : retrieve_last_24h_posts table now = none := by
    unfold retrieve_last_24h_posts
    rw [hfil]
    rfl
  refine ⟨hret, ?_, ?_, fun t => rfl, fun t => rfl⟩
  · unfold hourly_body
    rw [hret]
  · unfold hourly_analysis hourly_body
    rw [hret]

/-- Witness for C7 at a one-row table whose record is older than the window. -/
theorem c7_empty_window_witness :
    retrieve_last_24h_posts [c7stale] 100000 = none ∧
    hourly_body [c7stale] 100000 = .error .typeError ∧
    hourly_analysis [c7stale] 100000 = [] ∧
    (∀ t : ℚ, analyze_body [] t = .error .valueError) ∧
    (∀ t : ℚ, analyze_data [] t = []) :=
  c7_empty_window 100000 [c7stale] (by
    intro p hp
    simp only [List.mem_singleton] at hp
    subst hp
    norm_num [c7stale])

/-- Symbolic evaluation of the transform on a well-formed link submission
with a non-empty URL string. -/
theorem process_submission_mk (now created : ℚ) (pid t subName u : String)
    (urlT : Option String) (sc nc : ℤ) (hu : u ≠ "") :
    process_submission now (mkSubmission pid t urlT (some u) false subName sc nc created)
      = .ok (some
          { post_id := pid
            title := t
            linked_page_title := match urlT with | some ut => ut | none => t
            linked_page_url := u
            subreddit_name := subName
            upvotes := sc
            comments_count := nc
            upvote_per_comment := if 0 < nc then (sc : ℚ) / (nc : ℚ) else 0
            timestamp := created
            fetch_time := now
            score := none }) := by
  have hbeq : (u == "") = false := beq_eq_false_iff_ne.mpr hu
  simp only [process_submission, mkSubmission, py_truthy, hbeq, Bool.not_false, if_true]
  by_cases h : 0 < nc
  · rw [if_pos h, if_pos h]
    rfl
  · rw [if_neg h, if_neg h]
    rfl

/-- Claim C5: zero comments give `upvote_to_comment_ratio = 0` with no
division error, for any upvote value including negative ones; positive
comments give `upvotes / comment_count`. -/
theorem c5_ratio_guard (now created : ℚ) (pid t subName u : String) (sc nc : ℤ)
    (hu : u ≠ "") :
    (∃ r, process_submission now (mkSubmission pid t none (some u) false subName sc 0 created)
        = .ok (some r) ∧ PostRecord.upvote_per_comment r = 0) ∧
    (0 < nc →
      ∃ r, process_submission now (mkSubmission pid t none (some u) false subName sc nc created)
        = .ok (some r) ∧ PostRecord.upvote_per_comment r = (sc : ℚ) / (nc : ℚ)) := by
  constructor
  · refine ⟨_, process_submission_mk now created pid t subName u none sc 0 hu, ?_⟩
    norm_num
  · intro h
    refine ⟨_, process_submission_mk now created pid t subName u none sc nc hu, ?_⟩
    simp only [if_pos h]

/-- Witness for C5 with upvotes -5 and comment counts 0 and 3. -/
theorem c5_ratio_guard_witness :
    (∃ r, process_submission 0 (mkSubmission "x" "t" none (some "http://x") false "s" (-5) 0 0)
        = .ok (some r) ∧ PostRecord.upvote_per_comment r = 0) ∧
    (∃ r, process_submission 0 (mkSubmission "x" "t" none (some "http://x") false "s" (-5) 3 0)
        = .ok (some r) ∧ PostRecord.upvote_per_comment r = ((-5 : ℤ) : ℚ) / ((3 : ℤ) : ℚ)) := by
  have h := c5_ratio_guard 0 0 "x" "t" "s" "http://x" (-5) 3 (by decide)
  exact ⟨h.1, h.2 (by norm_num)⟩

/-- Claim C6: the transform returns `None` exactly for self posts and for
items whose link target is empty or missing; otherwise it returns a record
whose score field is null. -/
theorem c6_exclusion (now created : ℚ) (pid t subName : String) (urlT : Option String)
    (sc nc : ℤ) (isSelf : Bool) (u : Option String) :
    (process_submission now (mkSubmission pid t urlT u isSelf subName sc nc created)
        = .ok none ↔ (isSelf = true ∨ u = none ∨ u = some "")) ∧
    (¬(isSelf = true ∨ u = none ∨ u = some "") →
      ∃ r, process_submission now (mkSubmission pid t urlT u isSelf subName sc nc created)
          = .ok (some r) ∧ PostRecord.score r = none) := by
  cases isSelf with
  | true =>
    constructor
    · simp [process_submission, mkSubmission]
    · intro hcon
      exact absurd (Or.inl rfl) hcon
  | false =>
    cases u with
    | none =>
      constructor
      · simp [process_submission, mkSubmission, py_truthy]
      · intro hcon
        exact absurd (Or.inr (Or.inl rfl)) hcon
    | some str =>
      by_cases hs : str = ""
      · subst hs
        constructor
        · simp [process_submission, mkSubmission, py_truthy]
        · intro hcon
          exact absurd (Or.inr (Or.inr rfl)) hcon
      · have hmk := process_submission_mk now created pid t subName str urlT sc nc hs
        constructor
        · rw [hmk]
          simp [hs]
        · intro _
          exact ⟨_, hmk, rfl⟩

/-- Witness for C6: a self post is excluded, a link post yields a record
with a null score. -/
theorem c6_exclusion_witness :
    (process_submission 0 (mkSubmission "a" "t" none (some "http://a") true "s" 1 1 0)
        = .ok none ↔ (true = true ∨ some "http://a" = none ∨ some "http://a" = some "")) ∧
    (∃ r, process_submission 0 (mkSubmission "b" "t" none (some "http://b") false "s" 1 1 0)
        = .ok (some r) ∧ PostRecord.score r = none) := by
  refine ⟨(c6_exclusion 0 0 "a" "t" "s" none 1 1 true (some "http://a")).1, ?_⟩
  exact (c6_exclusion 0 0 "b" "t" "s" none 1 1 false (some "http://b")).2 (by simp)

/-- Claim C8 (code bug in src/main.py:83-85): one malformed item makes the
comprehension raise `AttributeError`, aborting the whole fetch batch, so
nothing at all is upserted, even though the neighbouring well-formed items
would each produce a record. -/
theorem c8_malformed_item_aborts_batch :
    fetch_results 0 [c8good1, c8bad, c8good2] = .error (.attributeError "title") ∧
    fetch_data_upserts 0 [c8good1, c8bad, c8good2] = [] ∧
    (∃ r, process_submission 0 c8good1 = .ok (some r)) ∧
    (∃ r, process_submission 0 c8good2 = .ok (some r)) :=
  ⟨rfl, rfl, ⟨_, rfl⟩, ⟨_, rfl⟩⟩

/-- Claim C9 (code bug in src/main.py:129-170): one failing score update
aborts the remaining updates of the cycle, because all writes sit under the
single cycle-wide exception handler: with the update for `"p2"` failing,
only `"p1"` is written and `"p3"` is never attempted, although a run with
no failures writes all three records. -/
theorem c9_write_failure_aborts_rest :
    analyze_data_store c9fails c9rows 0 = [("p1", 0)] ∧
    (∀ s : ℝ, ("p3", s) ∉ analyze_data_store c9fails c9rows 0) ∧
    analyze_data c9rows 0 = [("p1", 0), ("p2", 0), ("p3", 0)] := by
  have key : ∀ pid : String, ∀ a b : ℤ,
      scoreOf 4 a 6 b 0 { post_id := pid, upvotes := 4, comments_count := 6, timestamp := 0 }
        = 0 := by
    intro pid a b
    unfold scoreOf norm_upvotes norm_comments
    norm_num
  have hb : analyze_body c9rows 0 = .ok [("p1", (0 : ℝ)), ("p2", 0), ("p3", 0)] := by
    simp only [c9rows, analyze_body, List.map, uMin, uMax, cMin, cMax, pyMin, pyMax,
      List.foldl, min_self, max_self]
    exact congrArg Except.ok (by rw [key "p1" 4 6, key "p2" 4 6, key "p3" 4 6])
  refine ⟨?_, ?_, ?_⟩
  · unfold analyze_data_store
    rw [hb]
    simp [performUpdates, c9fails]
  · intro s
    unfold analyze_data_store
    rw [hb]
    simp [performUpdates, c9fails]
  · unfold analyze_data
    rw [hb]

/-- Claim C1: end-to-end scenario.  For the batch with upvotes
`[10, 20, 30]`, comment counts `[5, 5, 5]` and ages `[0, 24, 48]` hours,
analyze computes `u_min = 10`, `u_max = 30`, upvote range `20`, normalized
upvotes `[0, 1/2, 1]`, normalized comments `[0, 0, 0]` (zero-range guard),
decay factors `[1, e⁻¹, e⁻²]`, and writes the scores
`[0, 0.35·e⁻¹ ≈ 0.1288, 0.7·e⁻² ≈ 0.0947]` keyed by each post id. -/
theorem c1_end_to_end :
    uMin c1row1 [c1row2, c1row3] = 10 ∧
    uMax c1row1 [c1row2, c1row3] = 30 ∧
    upvote_range 10 30 = 20 ∧
    cMin c1row1 [c1row2, c1row3] = 5 ∧
    cMax c1row1 [c1row2, c1row3] = 5 ∧
    comment_range 5 5 = 1 ∧
    ([c1row1, c1row2, c1row3].map (postAge 172800)) = [0, 24, 48] ∧
    ([c1row1, c1row2, c1row3].map (fun r => norm_upvotes 10 30 r.upvotes))
      = [0, 1/2, 1] ∧
    ([c1row1, c1row2, c1row3].map (fun r => norm_comments 5 5 r.comments_count))
      = [0, 0, 0] ∧
    ([c1row1, c1row2, c1row3].map (fun r => age_factor (postAge 172800 r)))
      = [1, Real.exp (-1), Real.exp (-2)] ∧
    analyze_data [c1row1, c1row2, c1row3] 172800
      = [("p1", 0), ("p2", 0.35 * Real.exp (-1)), ("p3", 0.7 * Real.exp (-2))] ∧
    |0.35 * Real.exp (-1 : ℝ) - 0.1288| < 0.001 ∧
    |0.7 * Real.exp (-2 : ℝ) - 0.0947| < 0.001 := by
  have humin : uMin c1row1 [c1row2, c1row3] = 10 := by decide
  have humax : uMax c1row1 [c1row2, c1row3] = 30 := by decide
  have hcmin : cMin c1row1 [c1row2, c1row3] = 5 := by decide
  have hcmax : cMax c1row1 [c1row2, c1row3] = 5 := by decide
  have hage1 : postAge 172800 c1row1 = 0 := by norm_num [postAge, c1row1]
  have hage2 : postAge 172800 c1row2 = 24 := by norm_num [postAge, c1row2]
  have hage3 : postAge 172800 c1row3 = 48 := by norm_num [postAge, c1row3]
  have haf1 : age_factor (postAge 172800 c1row1) = 1 := by
    rw [hage1]
    unfold age_factor
    rw [show (-(((0 : ℚ)) : ℝ) / 24) = 0 by norm_num]
    exact Real.exp_zero
  have haf2 : age_factor (postAge 172800 c1row2) = Real.exp (-1) := by
    rw [hage2]
    unfold age_factor
    norm_num
  have haf3 : age_factor (postAge 172800 c1row3) = Real.exp (-2) := by
    rw [hage3]
    unfold age_factor
    norm_num
  have hn1 : norm_upvotes 10 30 (Row.upvotes c1row1) = 0 := by
    norm_num [norm_upvotes, upvote_range, c1row1]
  have hn2 : norm_upvotes 10 30 (Row.upvotes c1row2) = 1 / 2 := by
    norm_num [norm_upvotes, upvote_range, c1row2]
  have hn3 : norm_upvotes 10 30 (Row.upvotes c1row3) = 1 := by
    norm_num [norm_upvotes, upvote_range, c1row3]
  have hq1 : norm_comments 5 5 (Row.comments_count c1row1) = 0 := by
    norm_num [norm_comments, comment_range, c1row1]
  have hq2 : norm_comments 5 5 (Row.comments_count c1row2) = 0 := by
    norm_num [norm_comments, comment_range, c1row2]
  have hq3 : norm_comments 5 5 (Row.comments_count c1row3) = 0 := by
    norm_num [norm_comments, comment_range, c1row3]
  have hw1 : (0.7 * norm_upvotes 10 30 (Row.upvotes c1row1)
      + 0.3 * norm_comments 5 5 (Row.comments_count c1row1) : ℚ) = 0 := by
    rw [hn1, hq1]
    norm_num
  have hw2 : (0.7 * norm_upvotes 10 30 (Row.upvotes c1row2)
      + 0.3 * norm_comments 5 5 (Row.comments_count c1row2) : ℚ) = 0.35 := by
    rw [hn2, hq2]
    norm_num
  have hw3 : (0.7 * norm_upvotes 10 30 (Row.upvotes c1row3)
      + 0.3 * norm_comments 5 5 (Row.comments_count c1row3) : ℚ) = 0.7 := by
    rw [hn3, hq3]
    norm_num
  have hs1 : scoreOf 10 30 5 5 172800 c1row1 = 0 := by
    unfold scoreOf
    rw [hw1, haf1]
    norm_num
  have hs2 : scoreOf 10 30 5 5 172800 c1row2 = 0.35 * Real.exp (-1) := by
    unfold scoreOf
    rw [hw2, haf2]
    norm_num
  have hs3 : scoreOf 10 30 5 5 172800 c1row3 = 0.7 * Real.exp (-2) := by
    unfold scoreOf
    rw [hw3, haf3]
    norm_num
  have hdef : analyze_data [c1row1, c1row2, c1row3] 172800
      = [ (Row.post_id c1row1,
            scoreOf (uMin c1row1 [c1row2, c1row3]) (uMax c1row1 [c1row2, c1row3])
              (cMin c1row1 [c1row2, c1row3]) (cMax c1row1 [c1row2, c1row3]) 172800 c1row1),
          (Row.post_id c1row2,
            scoreOf (uMin c1row1 [c1row2, c1row3]) (uMax c1row1 [c1row2, c1row3])
              (cMin c1row1 [c1row2, c1row3]) (cMax c1row1 [c1row2, c1row3]) 172800 c1row2),
          (Row.post_id c1row3,
            scoreOf (uMin c1row1 [c1row2, c1row3]) (uMax c1row1 [c1row2, c1row3])
              (cMin c1row1 [c1row2, c1row3]) (cMax c1row1 [c1row2, c1row3]) 172800 c1row3) ] := rfl
  have hwrites : analyze_data [c1row1, c1row2, c1row3] 172800
      = [("p1", 0), ("p2", 0.35 * Real.exp (-1)), ("p3", 0.7 * Real.exp (-2))] := by
    rw [hdef, humin, humax, hcmin, hcmax, hs1, hs2, hs3]
    rfl
  have he1 := Real.exp_one_gt_d9
  have he2 := Real.exp_one_lt_d9
  have hepos : (0 : ℝ) < Real.exp 1 := Real.exp_pos 1
  have hinv : Real.exp (-1 : ℝ) = (Real.exp 1)⁻¹ := Real.exp_neg 1
  have hinv2 : Real.exp (-2 : ℝ) = (Real.exp 1 * Real.exp 1)⁻¹ := by
    rw [show (-2 : ℝ) = -(2 : ℝ) from rfl, Real.exp_neg]
    rw [show (2 : ℝ) = 1 + 1 by norm_num, Real.exp_add]
  have happrox1 : |0.35 * Real.exp (-1 : ℝ) - 0.1288| < 0.001 := by
    rw [hinv, abs_lt]
    have hinvpos : 0 < (Real.exp 1)⁻¹ := inv_pos.mpr hepos
    have hcancel : Real.exp 1 * (Real.exp 1)⁻¹ = 1 := mul_inv_cancel₀ hepos.ne'
    have hi1 : (2.7182818283 : ℝ) * (Real.exp 1)⁻¹ < 1 := by
      calc (2.7182818283 : ℝ) * (Real.exp 1)⁻¹
          < Real.exp 1 * (Real.exp 1)⁻¹ := mul_lt_mul_of_pos_right he1 hinvpos
        _ = 1 := hcancel
    have hi2 : (1 : ℝ) < 2.7182818286 * (Real.exp 1)⁻¹ := by
      calc (1 : ℝ) = Real.exp 1 * (Real.exp 1)⁻¹ := hcancel.symm
        _ < 2.7182818286 * (Real.exp 1)⁻¹ := mul_lt_mul_of_pos_right he2 hinvpos
    constructor <;> linarith
  have happrox2 : |0.7 * Real.exp (-2 : ℝ) - 0.0947| < 0.001 := by
    rw [hinv2, abs_lt]
    have hpp : (0 : ℝ) < Real.exp 1 * Real.exp 1 := mul_pos hepos hepos
    have hinvpos : 0 < (Real.exp 1 * Real.exp 1)⁻¹ := inv_pos.mpr hpp
    have hcancel : (Real.exp 1 * Real.exp 1) * (Real.exp 1 * Real.exp 1)⁻¹ = 1 :=
      mul_inv_cancel₀ hpp.ne'
    have hsq1 : (7.389 : ℝ) < Real.exp 1 * Real.exp 1 := by
      have hmul : (2.7182818283 : ℝ) * 2.7182818283 < Real.exp 1 * Real.exp 1 :=
        mul_lt_mul' he1.le he1 (by norm_num) hepos
      have hval : (7.389 : ℝ) < 2.7182818283 * 2.7182818283 := by norm_num
      linarith
    have hsq2 : Real.exp 1 * Real.exp 1 < 7.39 := by
      have hmul : Real.exp 1 * Real.exp 1 < (2.7182818286 : ℝ) * 2.7182818286 :=
        mul_lt_mul' he2.le he2 hepos.le (by norm_num)
      have hval : (2.7182818286 : ℝ) * 2.7182818286 < 7.39 := by norm_num
      linarith
    have hj1 : (7.389 : ℝ) * (Real.exp 1 * Real.exp 1)⁻¹ < 1 := by
      calc (7.389 : ℝ) * (Real.exp 1 * Real.exp 1)⁻¹
          < (Real.exp 1 * Real.exp 1) * (Real.exp 1 * Real.exp 1)⁻¹ :=
            mul_lt_mul_of_pos_right hsq1 hinvpos
        _ = 1 := hcancel
    have hj2 : (1 : ℝ) < 7.39 * (Real.exp 1 * Real.exp 1)⁻¹ := by
      calc (1 : ℝ) = (Real.exp 1 * Real.exp 1) * (Real.exp 1 * Real.exp 1)⁻¹ := hcancel.symm
        _ < 7.39 * (Real.exp 1 * Real.exp 1)⁻¹ := mul_lt_mul_of_pos_right hsq2 hinvpos
    constructor <;> linarith
  have hmap1 : ([c1row1, c1row2, c1row3].map (postAge 172800)) = [0, 24, 48] := by
    simp only [List.map_cons, List.map_nil]
    rw [hage1, hage2, hage3]
  have hmap2 : ([c1row1, c1row2, c1row3].map (fun r => norm_upvotes 10 30 r.upvotes))
      = [0, 1/2, 1] := by
    simp only [List.map_cons, List.map_nil]
    rw [hn1, hn2, hn3]
  have hmap3 : ([c1row1, c1row2, c1row3].map (fun r => norm_comments 5 5 r.comments_count))
      = [0, 0, 0] := by
    simp only [List.map_cons, List.map_nil]
    rw [hq1, hq2, hq3]
  have hmap4 : ([c1row1, c1row2, c1row3].map (fun r => age_factor (postAge 172800 r)))
      = [1, Real.exp (-1), Real.exp (-2)] := by
    simp only [List.map_cons, List.map_nil]
    rw [haf1, haf2, haf3]
  exact ⟨humin, humax, by decide, hcmin, hcmax, by decide, hmap1, hmap2, hmap3,
    hmap4, hwrites, happrox1, happrox2⟩
